import Mathlib

/-!
Verification of the V360 credential-rotation and aggregation core.

Shallow embedding, per source file:
* `Rotation` embeds `src/src/services/enhanced_api_rotation_manager.py`
  (`EnhancedAPIRotationManager`), restricted to a single service: the
  per-service dictionaries `api_configs[service]`, `current_indices[service]`,
  `error_counts[service]`, `last_used[service]`, `cooldown_periods[service]`
  become the fields of `PoolState`.  Timestamps are integer seconds
  (`datetime.now()` differences compared through `total_seconds()`).
* `WS1` embeds the first `AlibabaWebSailor` class of
  `src/src/services/alibaba_websailor.py` (lines 23-228): the byte-budgeted
  page loop `_search_text_content` and `_extract_and_add_content`.
* `WS2` embeds the second `AlibabaWebSailor` class of the same file
  (lines 237-554), the one actually exported by `get_websailor` (line 559).
* `Orch` embeds `src/src/services/real_search_orchestrator.py`
  (`RealSearchOrchestrator`): `_search_with_exa/_tavily/_serpapi`,
  `_search_with_multiple_apis` and `execute_comprehensive_search`.
  Network adapters are abstracted as explicit outcome functions
  `String → Except String (List _)` (credential key ↦ provider response or
  raised-exception text).
-/

namespace V360

/-- Pointwise map update, modelling `d[k] = v` on a Python dict viewed as a
total function (all pool keys are initialized in the dicts at startup). -/
def updMap {α : Type} (f : String → α) (k : String) (v : α) : String → α :=
  fun x => if x = k then v else f x

/-- Character-list test that the first list starts the second, used for
Python's `in` on strings. -/
def prefOfChars : List Char → List Char → Bool
  | [], _ => true
  | _ :: _, [] => false
  | a :: as, b :: bs => a == b && prefOfChars as bs

/-- Substring containment `needle in hay` for character lists. -/
def hasSubChars (needle : List Char) : List Char → Bool
  | [] => needle.isEmpty
  | b :: t => prefOfChars needle (b :: t) || hasSubChars needle t

/-- Lowercasing `str.lower()` on the underlying characters. -/
def toLowerChars (s : String) : List Char := s.data.map Char.toLower

/-- Models `"rate" in str(e).lower()` from the orchestrator's error
classification (real_search_orchestrator.py lines 138, 189, 240). -/
def hasRate (e : String) : Bool := hasSubChars "rate".data (toLowerChars e)

namespace Rotation

/-- Per-service slice of `EnhancedAPIRotationManager`'s state
(enhanced_api_rotation_manager.py lines 21-38): the configured key list,
the rotation cursor, and the per-key dicts.  `lastUsed` is in integer
seconds; `cooldown` is the cooldown duration in seconds. -/
structure PoolState where
  keys : List String
  idx : Nat
  errors : String → Nat
  lastUsed : String → Int
  cooldown : String → Int

/-- Embeds `_is_api_available` (lines 163-179): fails while
`(now - last_use).total_seconds() < cooldown`, or when the error count
exceeds 5. -/
def isApiAvailable (s : PoolState) (now : Int) (k : String) : Bool :=
  !(now - s.lastUsed k < s.cooldown k) && !(s.errors k > 5)

/-- Embeds `_update_usage` (lines 181-187): stamps `last_used[k] = now` and resets the
error count to 0 when `k` is a key of the error-count dict (which holds
exactly the configured keys). -/
def updateUsage (s : PoolState) (now : Int) (k : String) : PoolState :=
  { s with
    lastUsed := updMap s.lastUsed k now
    errors := if s.keys.contains k then updMap s.errors k 0 else s.errors }

/-- Python's `min(available_apis, key=lambda api: last_used.get(api, min))`
(line 157): first list element achieving the minimal `lastUsed`. -/
def leastRecentlyUsed (lu : String → Int) : List String → Option String
  | [] => none
  | k :: ks => some (ks.foldl (fun best k2 => if lu k2 < lu best then k2 else best) k)

/-- The `for _ in range(len(available_apis))` scan of `get_next_api`
(lines 145-161), with the remaining iteration count as fuel.  Probes the key
at the cursor; on availability selects it (via `_update_usage`); otherwise
advances the cursor modulo the pool size and retries.  When the fuel is
exhausted, falls back to the least-recently-used key. -/
def scanApis (now : Int) : Nat → PoolState → Option String × PoolState
  | 0, s =>
    match leastRecentlyUsed s.lastUsed s.keys with
    | some k => (some k, updateUsage s now k)
    | none => (none, s)
  | fuel + 1, s =>
    let k := s.keys.getD s.idx ""
    if isApiAvailable s now k then (some k, updateUsage s now k)
    else scanApis now fuel { s with idx := (s.idx + 1) % s.keys.length }

/-- Embeds `get_next_api` (lines 134-161).  An unconfigured service and an empty key
list both yield `none`; otherwise the round-robin scan runs with fuel equal to
the pool size. -/
def getNextApi (s : PoolState) (now : Int) : Option String × PoolState :=
  if s.keys.isEmpty then (none, s)
  else scanApis now s.keys.length s

/-- Embeds `report_error` (lines 189-202): when the key is tracked, increments its
error count and overwrites its cooldown duration per the failure class. -/
def reportError (s : PoolState) (k : String) (errType : String) : PoolState :=
  if s.keys.contains k then
    { s with
      errors := updMap s.errors k (s.errors k + 1)
      cooldown := updMap s.cooldown k
        (if errType = "rate_limit" then 300
         else if errType = "quota_exceeded" then 3600
         else 60) }
  else s

/-- Derived end of a credential's cooldown window: `_is_api_available` admits
the key exactly from `lastUsed k + cooldown k` on. -/
def cooldownUntil (s : PoolState) (k : String) : Int :=
  s.lastUsed k + s.cooldown k

end Rotation

namespace WS1

/-- One entry of `search_results["results"]` as consumed by
`_extract_and_add_content` (alibaba_websailor.py lines 112-134): the four
text fields read out of the result dict. -/
structure RawResult where
  url : String
  title : String
  content : String
  snippet : String
deriving DecidableEq

/-- The `content_size` of an entry (lines 124-125): the UTF-8 byte length of
the f-string `title content snippet` joined with single spaces. -/
def entrySize (r : RawResult) : Nat :=
  (r.title ++ " " ++ r.content ++ " " ++ r.snippet).utf8ByteSize

/-- The per-call collection session of the first `AlibabaWebSailor` class:
`content_buffer` and `extracted_content_size`. -/
structure SailorState where
  buffer : List RawResult
  size : Nat
deriving DecidableEq

/-- Embeds `_extract_and_add_content` (lines 112-134): accept the entry and add its
byte size to the accumulator exactly when the size exceeds 100 bytes. -/
def extractAndAddContent (s : SailorState) (r : RawResult) : SailorState :=
  let sz := entrySize r
  if sz > 100 then { buffer := s.buffer ++ [r], size := s.size + sz } else s

/-- The inner `for result in search_results["results"]` loop of
`_search_text_content` (lines 95-100): process entries in order, breaking as
soon as the accumulator reaches the target. -/
def processResults (target : Nat) : SailorState → List RawResult → SailorState
  | s, [] => s
  | s, r :: rs =>
    let s' := extractAndAddContent s r
    if s'.size ≥ target then s' else processResults target s' rs

/-- The `while self.extracted_content_size < self.target_content_size` page
loop of `_search_text_content` (lines 77-107).  `pages p` is the batch the
orchestrator's search capability returns for the page-`p` query variant
(`[]` models a missing or empty result set, which breaks the loop).
`target` models the `target_content_size` attribute.  The fuel argument is
an upper bound on the remaining iterations (the loop itself stops at the
hard 50-page ceiling); the returned list records, in order, every page
number whose batch was requested from the search capability. -/
def searchTextContent (pages : Nat → List RawResult) (target : Nat) :
    Nat → Nat → SailorState → SailorState × List Nat
  | 0, _, s => (s, [])
  | fuel + 1, page, s =>
    if s.size ≥ target then (s, [])
    else
      let batch := pages page
      if batch.isEmpty then (s, [page])
      else
        let s' := processResults target s batch
        if page + 1 > 50 then (s', [page])
        else
          let rest := searchTextContent pages target fuel (page + 1) s'
          (rest.1, page :: rest.2)

/-- The report dict returned by the first `execute_massive_search`
(lines 59-67), restricted to the fields the collection loop determines. -/
structure WsReport where
  success : Bool
  query : String
  content_size : Nat
  text_entries : Nat
deriving DecidableEq

/-- First `execute_massive_search` (lines 40-67): resets the session fields
(lines 43-46), runs the page loop from page 1 with fuel 50 (the hard page
ceiling), and reports `extracted_content_size` and the entry count.  The
social-image phase and the JSON sink do not touch the text session and are
out of the spec's scope. -/
def executeMassiveSearch (query : String) (pages : Nat → List RawResult)
    (target : Nat) : WsReport × SailorState :=
  let s0 : SailorState := { buffer := [], size := 0 }
  let res := searchTextContent pages target 50 1 s0
  ({ success := true
     query := query
     content_size := res.1.size
     text_entries := res.1.buffer.length }, res.1)

end WS1

namespace WS2

/-- State of the second `AlibabaWebSailor` class, the one `get_websailor`
(line 559) actually exports.  Its `__init__` (lines 240-247) sets
`total_content_size = 0` and `target_size = 500 * 1024`; `extracted_content`
is never written again and is omitted. -/
structure SailorState where
  total_content_size : Nat
  target_size : Nat
deriving DecidableEq

/-- The freshly constructed global instance (line 557). -/
def initState : SailorState := { total_content_size := 0, target_size := 500 * 1024 }

/-- The URL sweep of `_massive_text_search` plus `_extract_content_from_url`
(lines 316-337 and 373-388).  Each list element is one generated URL's
fetch-and-parse outcome: `none` for a failed or non-200 fetch or an
unparsable page, `some text` for the parsed `combined_text`.  A page is
saved when `len(content["text"]) > 100` characters, adding its
`size_bytes` (UTF-8 length, line 424) to `total_content_size`
(`_save_content_chunk`, line 444).  The batched `asyncio.gather` is
modelled by running the per-URL tasks in list order; the pre-scheduling
budget check (line 325) and the in-task budget check (line 376) collapse
to the single guard below. -/
def massiveTextSearch (target : Nat) : Nat → List (Option String) → Nat
  | total, [] => total
  | total, o :: rest =>
    if total ≥ target then total
    else
      match o with
      | some text =>
        if text.length > 100 then
          massiveTextSearch target (total + text.utf8ByteSize) rest
        else massiveTextSearch target total rest
      | none => massiveTextSearch target total rest

/-- Return dict of the second `execute_massive_search` (lines 274-279),
restricted to the fields the collection determines (the file path and
timestamp belong to the out-of-scope result sink). -/
structure WsResult where
  success : Bool
  content_size : Nat
deriving DecidableEq

/-- Second `execute_massive_search` (lines 249-287): initializes the
result file, runs the URL sweep, and reports `self.total_content_size`.
Note that, unlike the first class (lines 43-46), it never resets
`total_content_size` at call start: the accumulator carries over between
calls on the same instance. -/
def executeMassiveSearch (st : SailorState) (urlOutcomes : List (Option String)) :
    WsResult × SailorState :=
  let total := massiveTextSearch st.target_size st.total_content_size urlOutcomes
  ({ success := true, content_size := total }, { st with total_content_size := total })

end WS2

namespace Orch

/-- One raw Exa result as read by lines 119-126 of
real_search_orchestrator.py. -/
structure ExaRawItem where
  title : String
  url : String
  text : String
  highlights : List String
  published_date : Option String
deriving DecidableEq

/-- One processed Exa result dict (lines 120-126). -/
structure ExaItem where
  title : String
  url : String
  text : String
  highlights : List String
  published_date : Option String
deriving DecidableEq

/-- Lines 120-126: truncate `text` to 1000 characters and `highlights` to 3
(the `if result.text else` / `if result.highlights else` guards agree with
truncation on the empty cases). -/
def processExaItem (r : ExaRawItem) : ExaItem :=
  { title := r.title
    url := r.url
    text := r.text.take 1000
    highlights := r.highlights.take 3
    published_date := r.published_date }

/-- The Exa payload built at lines 129-133. -/
structure ExaResult where
  results : List ExaItem
  total_results : Nat
  api_used : String
deriving DecidableEq

/-- One raw Tavily result (lines 170-176). -/
structure TavilyRawItem where
  title : String
  url : String
  content : String
  score : Int
deriving DecidableEq

/-- One processed Tavily result dict (lines 171-176). -/
structure TavilyItem where
  title : String
  url : String
  content : String
  score : Int
deriving DecidableEq

/-- Lines 171-176: truncate `content` to 1000 characters. -/
def processTavilyItem (r : TavilyRawItem) : TavilyItem :=
  { title := r.title, url := r.url, content := r.content.take 1000, score := r.score }

/-- The Tavily payload built at lines 179-184. -/
structure TavilyResult where
  results : List TavilyItem
  answer : String
  total_results : Nat
  api_used : String
deriving DecidableEq

/-- One raw SerpAPI organic result (lines 222-228). -/
structure SerpRawItem where
  title : String
  link : String
  snippet : String
  position : Int
deriving DecidableEq

/-- One processed SerpAPI result dict (lines 223-228). -/
structure SerpItem where
  title : String
  url : String
  snippet : String
  position : Int
deriving DecidableEq

/-- Lines 223-228: rename `link` to `url`. -/
def processSerpItem (r : SerpRawItem) : SerpItem :=
  { title := r.title, url := r.link, snippet := r.snippet, position := r.position }

/-- The SerpAPI payload built at lines 231-235. -/
structure SerpapiResult where
  results : List SerpItem
  total_results : Nat
  api_used : String
deriving DecidableEq

/-- Embeds `_search_with_exa` (lines 93-140).  The adapter argument models the
`exa.search_and_contents` call: for a credential key it either returns the
provider's raw result list or raises an exception with the given message
text.  On a raise, the error is classified by the `"rate" in str(e).lower()`
test (line 138) and reported against the key selected by `get_next_api`;
the function then returns `None`.  The `if not exa_key` guard also treats
an empty-string key as missing. -/
def searchWithExa (s : Rotation.PoolState) (now : Int)
    (adapter : String → Except String (List ExaRawItem)) :
    Option ExaResult × Rotation.PoolState :=
  match Rotation.getNextApi s now with
  | (none, s1) => (none, s1)
  | (some key, s1) =>
    if key = "" then (none, s1)
    else
      match adapter key with
      | .ok rs =>
        (some { results := rs.map processExaItem
                total_results := rs.length
                api_used := key.take 10 ++ "..." }, s1)
      | .error e =>
        let errType := if hasRate e then "rate_limit" else "generic"
        (none, Rotation.reportError s1 key errType)

/-- Embeds `_search_with_tavily` (lines 142-197); the adapter yields the response's
`answer` string together with its raw result list, or raises. -/
def searchWithTavily (s : Rotation.PoolState) (now : Int)
    (adapter : String → Except String (String × List TavilyRawItem)) :
    Option TavilyResult × Rotation.PoolState :=
  match Rotation.getNextApi s now with
  | (none, s1) => (none, s1)
  | (some key, s1) =>
    if key = "" then (none, s1)
    else
      match adapter key with
      | .ok data =>
        (some { results := data.2.map processTavilyItem
                answer := data.1
                total_results := data.2.length
                api_used := key.take 10 ++ "..." }, s1)
      | .error e =>
        let errType := if hasRate e then "rate_limit" else "generic"
        (none, Rotation.reportError s1 key errType)

/-- Embeds `_search_with_serpapi` (lines 199-248). -/
def searchWithSerpapi (s : Rotation.PoolState) (now : Int)
    (adapter : String → Except String (List SerpRawItem)) :
    Option SerpapiResult × Rotation.PoolState :=
  match Rotation.getNextApi s now with
  | (none, s1) => (none, s1)
  | (some key, s1) =>
    if key = "" then (none, s1)
    else
      match adapter key with
      | .ok rs =>
        (some { results := rs.map processSerpItem
                total_results := rs.length
                api_used := key.take 10 ++ "..." }, s1)
      | .error e =>
        let errType := if hasRate e then "rate_limit" else "generic"
        (none, Rotation.reportError s1 key errType)

/-- Embeds `if exa_result and exa_result.get("results")` (line 78): the provider's
key enters the consolidated dict only for a truthy payload with a nonempty
result list. -/
def keepExa : Option ExaResult → Option ExaResult
  | some r => if r.results.isEmpty then none else some r
  | none => none

/-- Line 83, for Tavily. -/
def keepTavily : Option TavilyResult → Option TavilyResult
  | some r => if r.results.isEmpty then none else some r
  | none => none

/-- Line 88, for SerpAPI. -/
def keepSerpapi : Option SerpapiResult → Option SerpapiResult
  | some r => if r.results.isEmpty then none else some r
  | none => none

/-- The rotation manager's state restricted to the three services the
orchestrator queries. -/
structure OrchState where
  exa : Rotation.PoolState
  tavily : Rotation.PoolState
  serpapi : Rotation.PoolState

/-- The `results` dict built by `_search_with_multiple_apis` (lines 72-91):
one optional entry per provider name. -/
structure ApiSearchResults where
  exa : Option ExaResult
  tavily : Option TavilyResult
  serpapi : Option SerpapiResult
deriving DecidableEq

/-- Embeds `_search_with_multiple_apis` (lines 72-91): query the three providers in
order, threading each provider's pool state, and keep only truthy nonempty
payloads. -/
def searchWithMultipleApis (st : OrchState) (now : Int)
    (exaAd : String → Except String (List ExaRawItem))
    (tavAd : String → Except String (String × List TavilyRawItem))
    (serpAd : String → Except String (List SerpRawItem)) :
    ApiSearchResults × OrchState :=
  let er := searchWithExa st.exa now exaAd
  let tr := searchWithTavily st.tavily now tavAd
  let sr := searchWithSerpapi st.serpapi now serpAd
  ({ exa := keepExa er.1, tavily := keepTavily tr.1, serpapi := keepSerpapi sr.1 },
   { exa := er.2, tavily := tr.2, serpapi := sr.2 })

/-- The consolidated dict of `execute_comprehensive_search` (lines 52-59),
without the wall-clock timestamp string. -/
structure ConsolidatedResult where
  query : String
  product_name : String
  websailor_search : WS2.WsResult
  api_search_results : ApiSearchResults
  success : Bool

/-- Embeds `execute_comprehensive_search` (lines 39-70): run the websailor massive
search (the second class, via `get_websailor`), then the three-provider
fan-out, and consolidate with `success = True`.  Both sub-calls are total
here, so the `except` fallback (lines 64-70) is unreachable: provider
failures are absorbed inside `_search_with_*` and never propagate. -/
def executeComprehensiveSearch (ws : WS2.SailorState) (st : OrchState) (now : Int)
    (query product : String) (urlOutcomes : List (Option String))
    (exaAd : String → Except String (List ExaRawItem))
    (tavAd : String → Except String (String × List TavilyRawItem))
    (serpAd : String → Except String (List SerpRawItem)) :
    ConsolidatedResult × (WS2.SailorState × OrchState) :=
  let wr := WS2.executeMassiveSearch ws urlOutcomes
  let ar := searchWithMultipleApis st now exaAd tavAd serpAd
  ({ query := query
     product_name := product
     websailor_search := wr.1
     api_search_results := ar.1
     success := true }, (wr.2, ar.2))

end Orch

namespace Examples

/-- Two-credential exa pool, both keys an hour idle, the first carrying three
consecutive errors from earlier failures. -/
def poolC1 : Rotation.PoolState :=
  { keys := ["k0", "k1"]
    idx := 0
    errors := fun k => if k = "k0" then 3 else 0
    lastUsed := fun _ => -3600
    cooldown := fun _ => 0 }

/-- Two-credential pool, both keys fully healthy (no errors, no cooldown,
an hour idle), cursor at the first key. -/
def poolC2 : Rotation.PoolState :=
  { keys := ["k0", "k1"]
    idx := 0
    errors := fun _ => 0
    lastUsed := fun _ => -3600
    cooldown := fun _ => 0 }

/-- Two-credential pool in which credential `c` was last used at time 0 and
`d` an hour before that; no errors, no cooldowns yet. -/
def poolC4 : Rotation.PoolState :=
  { keys := ["c", "d"]
    idx := 0
    errors := fun _ => 0
    lastUsed := fun k => if k = "c" then 0 else -3600
    cooldown := fun _ => 0 }

/-- Single-credential pool whose key was last used at time 0. -/
def poolC5 : Rotation.PoolState :=
  { keys := ["c"]
    idx := 0
    errors := fun _ => 0
    lastUsed := fun _ => 0
    cooldown := fun _ => 0 }

/-- Two-credential pool with every key inside a 1000-second cooldown window:
`a` was used at time 5 and `b` at time 3, so at time 10 none is available
and `b` is the least recently used. -/
def poolC6 : Rotation.PoolState :=
  { keys := ["a", "b"]
    idx := 0
    errors := fun _ => 0
    lastUsed := fun k => if k = "a" then 5 else 3
    cooldown := fun _ => 1000 }

/-- A healthy single-key pool for a given credential string. -/
def healthyPool (k : String) : Rotation.PoolState :=
  { keys := [k]
    idx := 0
    errors := fun _ => 0
    lastUsed := fun _ => -3600
    cooldown := fun _ => 0 }

/-- Orchestrator pools: one healthy credential per provider. -/
def orchW : Orch.OrchState :=
  { exa := healthyPool "exa-key-1"
    tavily := healthyPool "tav-key-1"
    serpapi := healthyPool "serp-key-1" }

/-- Exa adapter that always succeeds with one result. -/
def adExaOk : String → Except String (List Orch.ExaRawItem) :=
  fun _ => .ok [{ title := "t", url := "u", text := "x", highlights := [], published_date := none }]

/-- Tavily adapter that always raises a rate-limit error. -/
def adTavRate : String → Except String (String × List Orch.TavilyRawItem) :=
  fun _ => .error "429 Rate limit exceeded"

/-- SerpAPI adapter that always succeeds with one result. -/
def adSerpOk : String → Except String (List Orch.SerpRawItem) :=
  fun _ => .ok [{ title := "t", link := "l", snippet := "s", position := 1 }]

/-- A candidate page whose combined title-content-snippet text is exactly
300 UTF-8 bytes (298 ASCII title characters plus the two joining spaces). -/
def page300 : WS1.RawResult :=
  { url := "u"
    title := String.mk (List.replicate 298 'a')
    content := ""
    snippet := "" }

/-- Search capability returning one 300-byte candidate on every page. -/
def pagesOf300 : Nat → List WS1.RawResult := fun _ => [page300]

/-- A candidate page with empty text fields: its combined size is the two
joining spaces, 2 bytes, below the 100-byte floor. -/
def rEmpty : WS1.RawResult :=
  { url := "", title := "", content := "", snippet := "" }

/-- One fetched URL whose parsed text is 300 ASCII characters, hence over the
100-character floor and 300 bytes in size. -/
def out300 : List (Option String) := [some (String.mk (List.replicate 300 'a'))]

end Examples

/-! ## Helper lemmas -/

@[simp] theorem updMap_same {α : Type} (f : String → α) (k : String) (v : α) :
    updMap f k v k = v := by
  simp [updMap]

@[simp] theorem updMap_other {α : Type} (f : String → α) (k x : String) (v : α)
    (h : x ≠ k) : updMap f k v x = f x := by
  simp [updMap, h]

namespace Rotation

theorem lru_foldl_spec (lu : String → Int) (ks : List String) : ∀ (b : String),
    (ks.foldl (fun best k2 => if lu k2 < lu best then k2 else best) b) ∈ b :: ks ∧
    lu (ks.foldl (fun best k2 => if lu k2 < lu best then k2 else best) b) ≤ lu b ∧
    ∀ k' ∈ ks, lu (ks.foldl (fun best k2 => if lu k2 < lu best then k2 else best) b) ≤ lu k' := by
  induction ks with
  | nil => exact fun b => ⟨by simp, le_refl _, by simp⟩
  | cons k2 ks ih =>
    intro b
    simp only [List.foldl_cons]
    by_cases h : lu k2 < lu b
    · obtain ⟨hmem, hle, hall⟩ := ih k2
      rw [if_pos h]
      refine ⟨?_, le_of_lt (lt_of_le_of_lt hle h), ?_⟩
      · rcases List.mem_cons.1 hmem with h1 | h1
        · simp [h1]
        · simp [List.mem_cons.2 (Or.inr h1)]
      · intro k' hk'
        rcases List.mem_cons.1 hk' with h1 | h1
        · subst h1; exact hle
        · exact hall _ h1
    · obtain ⟨hmem, hle, hall⟩ := ih b
      rw [if_neg h]
      refine ⟨?_, hle, ?_⟩
      · rcases List.mem_cons.1 hmem with h1 | h1
        · simp [h1]
        · simp [List.mem_cons.2 (Or.inr h1)]
      · intro k' hk'
        rcases List.mem_cons.1 hk' with h1 | h1
        · subst h1; exact le_trans hle (le_of_not_lt h)
        · exact hall _ h1

theorem leastRecentlyUsed_spec (lu : String → Int) (l : List String) (h : l ≠ []) :
    ∃ k, leastRecentlyUsed lu l = some k ∧ k ∈ l ∧ ∀ k' ∈ l, lu k ≤ lu k' := by
  match l, h with
  | k :: ks, _ =>
    obtain ⟨hmem, hle, hall⟩ := lru_foldl_spec lu ks k
    refine ⟨_, rfl, hmem, ?_⟩
    intro k' hk'
    rcases List.mem_cons.1 hk' with h1 | h1
    · subst h1; exact hle
    · exact hall _ h1

theorem updateUsage_keys (s : PoolState) (now : Int) (k : String) :
    (updateUsage s now k).keys = s.keys := rfl

theorem updateUsage_idx (s : PoolState) (now : Int) (k : String) :
    (updateUsage s now k).idx = s.idx := rfl

theorem updateUsage_cooldown (s : PoolState) (now : Int) (k : String) :
    (updateUsage s now k).cooldown = s.cooldown := rfl

theorem updateUsage_errors_self (s : PoolState) (now : Int) (k : String)
    (h : k ∈ s.keys) : (updateUsage s now k).errors k = 0 := by
  simp [updateUsage, h]

theorem updateUsage_errors_other (s : PoolState) (now : Int) (k c : String)
    (h : c ≠ k) : (updateUsage s now k).errors c = s.errors c := by
  by_cases hm : k ∈ s.keys <;> simp [updateUsage, hm, h]

theorem neTrue {b : Bool} (h : b = false) : ¬ b = true := by
  simp [h]

theorem reportError_eq (s : PoolState) (c et : String) (hc : c ∈ s.keys) :
    reportError s c et =
      { s with
        errors := updMap s.errors c (s.errors c + 1)
        cooldown := updMap s.cooldown c
          (if et = "rate_limit" then 300
           else if et = "quota_exceeded" then 3600
           else 60) } := by
  simp [reportError, hc]

theorem scanApis_zero (now : Int) (s : PoolState) :
    scanApis now 0 s =
      match leastRecentlyUsed s.lastUsed s.keys with
      | some k => (some k, updateUsage s now k)
      | none => (none, s) := rfl

theorem scanApis_succ (now : Int) (fuel : Nat) (s : PoolState) :
    scanApis now (fuel + 1) s =
      if isApiAvailable s now (s.keys.getD s.idx "") then
        (some (s.keys.getD s.idx ""), updateUsage s now (s.keys.getD s.idx ""))
      else scanApis now fuel { s with idx := (s.idx + 1) % s.keys.length } := rfl

theorem getNextApi_eq (s : PoolState) (now : Int) (hemp : s.keys.isEmpty = false) :
    getNextApi s now = scanApis now s.keys.length s := by
  simp only [getNextApi, hemp, Bool.false_eq_true, if_false]

theorem scanApis_shape (now : Int) :
    ∀ (fuel : Nat) (s : PoolState), s.idx < s.keys.length →
      ∃ k i, scanApis now fuel s = (some k, updateUsage { s with idx := i } now k) ∧
        k ∈ s.keys := by
  intro fuel
  induction fuel with
  | zero =>
    intro s hidx
    have hne : s.keys ≠ [] := by
      intro h
      rw [h] at hidx
      simp at hidx
    obtain ⟨k, hk, hmem, _⟩ := leastRecentlyUsed_spec s.lastUsed s.keys hne
    exact ⟨k, s.idx, by rw [scanApis_zero, hk], hmem⟩
  | succ fuel ih =>
    intro s hidx
    cases hav : isApiAvailable s now (s.keys.getD s.idx "") with
    | true =>
      refine ⟨s.keys.getD s.idx "", s.idx, by rw [scanApis_succ, if_pos hav], ?_⟩
      rw [List.getD_eq_getElem _ _ hidx]
      exact List.getElem_mem hidx
    | false =>
      have hpos : 0 < s.keys.length := by omega
      obtain ⟨k, i, heq, hmem⟩ :=
        ih { s with idx := (s.idx + 1) % s.keys.length } (Nat.mod_lt _ hpos)
      refine ⟨k, i, ?_, hmem⟩
      rw [scanApis_succ, if_neg (neTrue hav)]
      exact heq

theorem scanApis_isSome (now : Int) :
    ∀ (fuel : Nat) (s : PoolState), s.keys ≠ [] →
      ∃ k s2, scanApis now fuel s = (some k, s2) := by
  intro fuel
  induction fuel with
  | zero =>
    intro s hne
    obtain ⟨k, hk, _, _⟩ := leastRecentlyUsed_spec s.lastUsed s.keys hne
    exact ⟨k, updateUsage s now k, by rw [scanApis_zero, hk]⟩
  | succ fuel ih =>
    intro s hne
    cases hav : isApiAvailable s now (s.keys.getD s.idx "") with
    | true =>
      exact ⟨_, _, by rw [scanApis_succ, if_pos hav]⟩
    | false =>
      obtain ⟨k, s2, heq⟩ := ih { s with idx := (s.idx + 1) % s.keys.length } hne
      refine ⟨k, s2, ?_⟩
      rw [scanApis_succ, if_neg (neTrue hav)]
      exact heq

theorem getNextApi_spec (s : PoolState) (now : Int) (hidx : s.idx < s.keys.length) :
    ∃ k i, getNextApi s now = (some k, updateUsage { s with idx := i } now k) ∧
      k ∈ s.keys := by
  have hne : s.keys ≠ [] := by
    intro h
    rw [h] at hidx
    simp at hidx
  have hemp : s.keys.isEmpty = false := by simp [List.isEmpty_iff, hne]
  rw [getNextApi_eq s now hemp]
  exact scanApis_shape now s.keys.length s hidx

theorem getNextApi_none (s : PoolState) (now : Int) :
    (getNextApi s now).1 = none → (getNextApi s now).2 = s := by
  cases hemp : s.keys.isEmpty with
  | true => simp [getNextApi, hemp]
  | false =>
    intro h
    have hne : s.keys ≠ [] := by simpa [List.isEmpty_iff] using hemp
    obtain ⟨k, s2, heq⟩ := scanApis_isSome now s.keys.length s hne
    rw [getNextApi_eq s now hemp, heq] at h
    simp at h

theorem scanApis_second (now : Int) (fuel : Nat) (s : PoolState)
    (hun : isApiAvailable s now (s.keys.getD s.idx "") = false)
    (hav : isApiAvailable s now (s.keys.getD ((s.idx + 1) % s.keys.length) "") = true) :
    scanApis now (fuel + 2) s =
      (some (s.keys.getD ((s.idx + 1) % s.keys.length) ""),
       updateUsage { s with idx := (s.idx + 1) % s.keys.length } now
         (s.keys.getD ((s.idx + 1) % s.keys.length) "")) := by
  rw [scanApis_succ, if_neg (neTrue hun), scanApis_succ]
  exact if_pos hav

theorem exists_probe_index (n idx j0 : Nat) (hidx : idx < n) (hj0 : j0 < n) :
    ∃ j, j < n ∧ (idx + j) % n = j0 := by
  refine ⟨(j0 + n - idx) % n, Nat.mod_lt _ (by omega), ?_⟩
  rw [Nat.add_mod_mod]
  have h : idx + (j0 + n - idx) = j0 + n := by omega
  rw [h, Nat.add_mod_right, Nat.mod_eq_of_lt hj0]

theorem scanApis_finds_available (now : Int) :
    ∀ (fuel : Nat) (s : PoolState), s.idx < s.keys.length →
      (∃ j, j < fuel ∧
        isApiAvailable s now (s.keys.getD ((s.idx + j) % s.keys.length) "") = true) →
      ∃ k, (scanApis now fuel s).1 = some k ∧ isApiAvailable s now k = true := by
  intro fuel
  induction fuel with
  | zero =>
    intro s _ h
    obtain ⟨j, hj, _⟩ := h
    omega
  | succ fuel ih =>
    intro s hidx h
    obtain ⟨j, hj, hav⟩ := h
    cases hav0 : isApiAvailable s now (s.keys.getD s.idx "") with
    | true =>
      exact ⟨_, by rw [scanApis_succ, if_pos hav0], hav0⟩
    | false =>
      have hpos : 0 < s.keys.length := by omega
      have hj0 : j ≠ 0 := by
        intro hz
        subst hz
        rw [Nat.add_zero, Nat.mod_eq_of_lt hidx, hav0] at hav
        simp at hav
      obtain ⟨j2, rfl⟩ : ∃ j2, j = j2 + 1 := ⟨j - 1, by omega⟩
      have hshift : ((s.idx + 1) % s.keys.length + j2) % s.keys.length =
          (s.idx + (j2 + 1)) % s.keys.length := by
        rw [Nat.mod_add_mod]
        congr 1
        omega
      have hav2 : isApiAvailable s now
          (s.keys.getD (((s.idx + 1) % s.keys.length + j2) % s.keys.length) "") = true := by
        rw [hshift]
        exact hav
      obtain ⟨k, h1, h2⟩ :=
        ih { s with idx := (s.idx + 1) % s.keys.length } (Nat.mod_lt _ hpos)
          ⟨j2, by omega, hav2⟩
      refine ⟨k, ?_, h2⟩
      rw [scanApis_succ, if_neg (neTrue hav0)]
      exact h1

theorem getNextApi_finds_available (s : PoolState) (now : Int)
    (hidx : s.idx < s.keys.length) (k : String) (hk : k ∈ s.keys)
    (hav : isApiAvailable s now k = true) :
    ∃ k2, (getNextApi s now).1 = some k2 ∧ isApiAvailable s now k2 = true := by
  have hne : s.keys ≠ [] := List.ne_nil_of_mem hk
  have hemp : s.keys.isEmpty = false := by simp [List.isEmpty_iff, hne]
  obtain ⟨j0, hj0, hel⟩ := List.mem_iff_getElem.1 hk
  have hgetD : s.keys.getD j0 "" = k := by rw [List.getD_eq_getElem _ _ hj0, hel]
  obtain ⟨j, hj, hjeq⟩ := exists_probe_index s.keys.length s.idx j0 hidx hj0
  rw [getNextApi_eq s now hemp]
  exact scanApis_finds_available now s.keys.length s hidx
    ⟨j, hj, by rw [hjeq, hgetD]; exact hav⟩

theorem scanApis_lru (now : Int) :
    ∀ (fuel : Nat) (s : PoolState), s.idx < s.keys.length →
      (∀ k ∈ s.keys, isApiAvailable s now k = false) →
      (scanApis now fuel s).1 = leastRecentlyUsed s.lastUsed s.keys := by
  intro fuel
  induction fuel with
  | zero =>
    intro s _ _
    cases h : leastRecentlyUsed s.lastUsed s.keys <;> rw [scanApis_zero, h]
  | succ fuel ih =>
    intro s hidx hall
    have hk : s.keys.getD s.idx "" ∈ s.keys := by
      rw [List.getD_eq_getElem _ _ hidx]
      exact List.getElem_mem hidx
    have hun := hall _ hk
    have hpos : 0 < s.keys.length := by omega
    have hrec := ih { s with idx := (s.idx + 1) % s.keys.length } (Nat.mod_lt _ hpos) hall
    rw [scanApis_succ, if_neg (neTrue hun)]
    exact hrec

end Rotation

/-! ## Claim theorems -/

/-- C1, counterexample.  In `poolC1` credential `k0` carries 3 consecutive
errors yet passes the availability check, so `get_next_api` selects it; the
`_update_usage` it performs resets the error count to 0, so the call does
have a side effect on error counters. -/
theorem c1_counterexample :
    Examples.poolC1.errors "k0" = 3 ∧
    (Rotation.getNextApi Examples.poolC1 0).1 = some "k0" ∧
    (Rotation.getNextApi Examples.poolC1 0).2.errors "k0" = 0 := by
  exact ⟨by decide, by decide, by decide⟩

/-- C1, amended: `get_next_api` leaves every non-selected credential's error
count unchanged, but resets the selected credential's error count to 0 (in
addition to stamping its `lastUsedAt` and possibly moving the cursor); when
nothing is selected the state is unchanged. -/
theorem c1_theorem (s : Rotation.PoolState) (now : Int) :
    ((Rotation.getNextApi s now).1 = none → (Rotation.getNextApi s now).2 = s) ∧
    (s.idx < s.keys.length → ∀ k, (Rotation.getNextApi s now).1 = some k →
      (Rotation.getNextApi s now).2.errors k = 0 ∧
      ∀ c, c ≠ k → (Rotation.getNextApi s now).2.errors c = s.errors c) := by
  refine ⟨Rotation.getNextApi_none s now, ?_⟩
  intro hidx k hk
  obtain ⟨k', i, heq, hmem⟩ := Rotation.getNextApi_spec s now hidx
  rw [heq] at hk
  simp only [Option.some.injEq] at hk
  subst hk
  rw [heq]
  constructor
  · exact Rotation.updateUsage_errors_self _ now _ hmem
  · intro c hc
    exact Rotation.updateUsage_errors_other _ now _ _ hc

/-- C1, witness for the amended theorem at `poolC1`, time 0: the selected
credential `k0` ends with error count 0 while `k1` keeps its count. -/
theorem c1_witness :
    Examples.poolC1.idx < Examples.poolC1.keys.length ∧
    (Rotation.getNextApi Examples.poolC1 0).1 = some "k0" ∧
    (Rotation.getNextApi Examples.poolC1 0).2.errors "k0" = 0 ∧
    (Rotation.getNextApi Examples.poolC1 0).2.errors "k1" = Examples.poolC1.errors "k1" :=
  ⟨by decide, by decide,
   ((c1_theorem Examples.poolC1 0).2 (by decide) "k0" (by decide)).1,
   ((c1_theorem Examples.poolC1 0).2 (by decide) "k0" (by decide)).2 "k1" (by decide)⟩

/-- C2, counterexample.  In `poolC2` both credentials are healthy, yet two
consecutive `get_next_api` calls both return `k0` and the cursor stays at 0:
the cursor only advances past a credential that fails the availability
check, so a healthy pool of size 2 never yields each credential once. -/
theorem c2_counterexample :
    Examples.poolC2.keys = ["k0", "k1"] ∧
    (Rotation.getNextApi Examples.poolC2 0).1 = some "k0" ∧
    (Rotation.getNextApi (Rotation.getNextApi Examples.poolC2 0).2 1).1 = some "k0" ∧
    (Rotation.getNextApi Examples.poolC2 0).2.idx = 0 := by
  exact ⟨rfl, by decide, by decide, by decide⟩

/-- C2, amended: when the credential at the rotation cursor passes the
availability check, `get_next_api` returns it and leaves the cursor where it
is (so consecutive calls on an all-healthy pool keep returning the same
credential); the cursor advances modulo the pool size only on a probe that
fails the availability check, after which the next credential is probed. -/
theorem c2_theorem (s : Rotation.PoolState) (now : Int)
    (hidx : s.idx < s.keys.length) :
    (Rotation.isApiAvailable s now (s.keys.getD s.idx "") = true →
      Rotation.getNextApi s now =
        (some (s.keys.getD s.idx ""), Rotation.updateUsage s now (s.keys.getD s.idx ""))) ∧
    (Rotation.isApiAvailable s now (s.keys.getD s.idx "") = false →
      Rotation.isApiAvailable s now (s.keys.getD ((s.idx + 1) % s.keys.length) "") = true →
      (Rotation.getNextApi s now).1 = some (s.keys.getD ((s.idx + 1) % s.keys.length) "") ∧
      (Rotation.getNextApi s now).2.idx = (s.idx + 1) % s.keys.length) := by
  have hpos : 0 < s.keys.length := by omega
  have hemp : s.keys.isEmpty = false := by
    cases h : s.keys.isEmpty with
    | false => rfl
    | true =>
      rw [List.isEmpty_iff] at h
      rw [h] at hpos
      simp at hpos
  constructor
  · intro hav
    obtain ⟨m, hm⟩ : ∃ m, s.keys.length = m + 1 := ⟨s.keys.length - 1, by omega⟩
    rw [Rotation.getNextApi_eq s now hemp, hm, Rotation.scanApis_succ, if_pos hav]
  · intro hun hav
    obtain ⟨m, hm⟩ : ∃ m, s.keys.length = m + 1 := ⟨s.keys.length - 1, by omega⟩
    cases m with
    | zero =>
      exfalso
      have he : (s.idx + 1) % s.keys.length = s.idx := by rw [hm]; omega
      rw [he] at hav
      rw [hav] at hun
      simp at hun
    | succ m2 =>
      have hlen : Rotation.scanApis now s.keys.length s =
          Rotation.scanApis now (m2 + 2) s := by rw [hm]
      rw [Rotation.getNextApi_eq s now hemp, hlen,
        Rotation.scanApis_second now m2 s hun hav]
      exact ⟨rfl, rfl⟩

/-- C2, witness for the amended theorem at `poolC2`: the cursor credential
`k0` is healthy, gets returned, and the cursor stays at 0. -/
theorem c2_witness :
    Examples.poolC2.idx < Examples.poolC2.keys.length ∧
    Rotation.isApiAvailable Examples.poolC2 0 (Examples.poolC2.keys.getD Examples.poolC2.idx "") = true ∧
    Rotation.getNextApi Examples.poolC2 0 =
      (some (Examples.poolC2.keys.getD Examples.poolC2.idx ""),
       Rotation.updateUsage Examples.poolC2 0 (Examples.poolC2.keys.getD Examples.poolC2.idx "")) :=
  ⟨by decide, by decide, (c2_theorem Examples.poolC2 0 (by decide)).1 (by decide)⟩

/-- C4, counterexample.  `report_error` reads no clock, so a
`quota_exceeded` failure recorded at simulated time t = 100 against
credential `c` (last used at time 0) only blocks `c` until
`lastUsedAt + 3600 = 3600`: at time 3650 < t + 3600 = 3700 the scan selects
`c` again even though the other credential `d` is healthy and available. -/
theorem c4_counterexample :
    Rotation.isApiAvailable (Rotation.reportError Examples.poolC4 "c" "quota_exceeded")
      3650 "d" = true ∧
    (3650 : Int) < 100 + 3600 ∧
    (Rotation.getNextApi (Rotation.reportError Examples.poolC4 "c" "quota_exceeded") 3650).1 =
      some "c" := by
  exact ⟨by decide, by decide, by decide⟩

/-- C4, amended: after `recordFailure(p, c, "quota_exceeded")`,
`selectCredential(p)` does not return `c` at any time earlier than
`lastUsedAt(c) + 3600` (the cooldown window is measured from the
credential's `lastUsedAt`, not from the failure time), provided some other
credential of the pool is available. -/
theorem c4_theorem (s : Rotation.PoolState) (now : Int) (c : String)
    (hidx : s.idx < s.keys.length) (hc : c ∈ s.keys)
    (hwin : now - s.lastUsed c < 3600)
    (hother : ∃ k, k ∈ s.keys ∧ k ≠ c ∧ Rotation.isApiAvailable s now k = true) :
    (Rotation.getNextApi (Rotation.reportError s c "quota_exceeded") now).1 ≠ some c := by
  have hR := Rotation.reportError_eq s c "quota_exceeded" hc
  have hcool : (Rotation.reportError s c "quota_exceeded").cooldown c = 3600 := by
    rw [hR]
    simp
  have hcu : Rotation.isApiAvailable (Rotation.reportError s c "quota_exceeded") now c = false := by
    rw [Rotation.isApiAvailable, hcool, hR]
    simp [hwin]
  obtain ⟨k, hkmem, hkc, hkav⟩ := hother
  have hkav2 : Rotation.isApiAvailable (Rotation.reportError s c "quota_exceeded") now k = true := by
    rw [hR]
    rw [Rotation.isApiAvailable] at hkav ⊢
    simpa [updMap, hkc] using hkav
  have hidx2 : (Rotation.reportError s c "quota_exceeded").idx <
      (Rotation.reportError s c "quota_exceeded").keys.length := by
    rw [hR]
    exact hidx
  have hkmem2 : k ∈ (Rotation.reportError s c "quota_exceeded").keys := by
    rw [hR]
    exact hkmem
  obtain ⟨k2, hk2, hk2av⟩ :=
    Rotation.getNextApi_finds_available (Rotation.reportError s c "quota_exceeded") now
      hidx2 k hkmem2 hkav2
  intro hcon
  rw [hcon] at hk2
  simp only [Option.some.injEq] at hk2
  rw [← hk2] at hk2av
  rw [hcu] at hk2av
  simp at hk2av

/-- C4, witness for the amended theorem at `poolC4`, selecting at time 3500,
inside the window measured from `c`'s `lastUsedAt = 0`. -/
theorem c4_witness :
    ((3500 : Int) - Examples.poolC4.lastUsed "c" < 3600) ∧
    (Rotation.getNextApi (Rotation.reportError Examples.poolC4 "c" "quota_exceeded") 3500).1 ≠
      some "c" :=
  ⟨by decide,
   c4_theorem Examples.poolC4 3500 "c" (by decide) (by decide) (by decide)
     ⟨"d", by decide, by decide, by decide⟩⟩

/-- C5, counterexample.  `report_error` stores a cooldown duration measured
from the credential's `lastUsedAt`, and reads no clock: recording a
`rate_limit` failure at simulated time 100 against a credential last used at
time 0 makes its window end at 0 + 300 = 300, not 100 + 300 = 400, and the
credential already passes the availability check again at time 350. -/
theorem c5_counterexample :
    Rotation.cooldownUntil (Rotation.reportError Examples.poolC5 "c" "rate_limit") "c" = 300 ∧
    (300 : Int) ≠ 100 + 300 ∧
    Rotation.isApiAvailable (Rotation.reportError Examples.poolC5 "c" "rate_limit") 350 "c" = true := by
  exact ⟨by decide, by decide, by decide⟩

/-- C5, amended: `report_error` increments the credential's error count by
exactly 1 and overwrites its cooldown duration with 300 s for `rate_limit`,
3600 s for `quota_exceeded` and 60 s otherwise, so the cooldown window ends
at `lastUsedAt + duration` (not `now + duration`); a later failure
overwrites the duration (latest classification wins), and no other
credential's state changes. -/
theorem c5_theorem (s : Rotation.PoolState) (c : String) (et : String)
    (hc : c ∈ s.keys) :
    (Rotation.reportError s c et).errors c = s.errors c + 1 ∧
    (Rotation.reportError s c et).cooldown c =
      (if et = "rate_limit" then 300 else if et = "quota_exceeded" then 3600 else 60) ∧
    Rotation.cooldownUntil (Rotation.reportError s c et) c =
      s.lastUsed c +
        (if et = "rate_limit" then 300 else if et = "quota_exceeded" then 3600 else 60) ∧
    (Rotation.reportError s c et).lastUsed = s.lastUsed ∧
    (Rotation.reportError s c et).idx = s.idx ∧
    (Rotation.reportError s c et).keys = s.keys ∧
    (∀ k, k ≠ c → (Rotation.reportError s c et).errors k = s.errors k ∧
      (Rotation.reportError s c et).cooldown k = s.cooldown k) ∧
    (∀ et2, (Rotation.reportError (Rotation.reportError s c et) c et2).cooldown c =
      (if et2 = "rate_limit" then 300 else if et2 = "quota_exceeded" then 3600 else 60)) := by
  have hR := Rotation.reportError_eq s c et hc
  have hc2 : c ∈ (Rotation.reportError s c et).keys := by rw [hR]; exact hc
  refine ⟨?_, ?_, ?_, ?_, ?_, ?_, ?_, ?_⟩
  · rw [hR]; simp
  · rw [hR]; simp
  · rw [hR]; simp [Rotation.cooldownUntil]
  · rw [hR]
  · rw [hR]
  · rw [hR]
  · intro k hk
    rw [hR]
    exact ⟨by simp [hk], by simp [hk]⟩
  · intro et2
    rw [Rotation.reportError_eq (Rotation.reportError s c et) c et2 hc2, hR]
    simp

/-- C5, witness for the amended theorem at `poolC5` with a
`quota_exceeded` failure. -/
theorem c5_witness :
    ("c" ∈ Examples.poolC5.keys) ∧
    ((Rotation.reportError Examples.poolC5 "c" "quota_exceeded").errors "c" =
      Examples.poolC5.errors "c" + 1 ∧
     (Rotation.reportError Examples.poolC5 "c" "quota_exceeded").cooldown "c" =
      (if "quota_exceeded" = "rate_limit" then 300
       else if "quota_exceeded" = "quota_exceeded" then 3600 else 60)) :=
  ⟨by decide,
   (c5_theorem Examples.poolC5 "c" "quota_exceeded" (by decide)).1,
   ((c5_theorem Examples.poolC5 "c" "quota_exceeded" (by decide)).2).1⟩

/-- C6: when no credential in a non-empty pool passes the availability
check, `get_next_api` still returns exactly one credential, a member of the
pool whose `lastUsedAt` is minimal. -/
theorem c6_theorem (s : Rotation.PoolState) (now : Int)
    (hne : s.keys ≠ []) (hidx : s.idx < s.keys.length)
    (hall : ∀ k ∈ s.keys, Rotation.isApiAvailable s now k = false) :
    ∃ k, (Rotation.getNextApi s now).1 = some k ∧ k ∈ s.keys ∧
      ∀ k' ∈ s.keys, s.lastUsed k ≤ s.lastUsed k' := by
  obtain ⟨k, hlru, hmem, hmin⟩ := Rotation.leastRecentlyUsed_spec s.lastUsed s.keys hne
  have hemp : s.keys.isEmpty = false := by simp [List.isEmpty_iff, hne]
  have hscan := Rotation.scanApis_lru now s.keys.length s hidx hall
  refine ⟨k, ?_, hmem, hmin⟩
  rw [Rotation.getNextApi, hemp, if_neg (by simp), hscan, hlru]

/-- C6, witness at `poolC6`, time 10: both keys sit in a cooldown window and
the least recently used one (`b`) is returned. -/
theorem c6_witness :
    (Examples.poolC6.keys ≠ [] ∧
     Examples.poolC6.idx < Examples.poolC6.keys.length ∧
     ∀ k ∈ Examples.poolC6.keys, Rotation.isApiAvailable Examples.poolC6 10 k = false) ∧
    (∃ k, (Rotation.getNextApi Examples.poolC6 10).1 = some k ∧ k ∈ Examples.poolC6.keys ∧
      ∀ k' ∈ Examples.poolC6.keys, Examples.poolC6.lastUsed k ≤ Examples.poolC6.lastUsed k') ∧
    (Rotation.getNextApi Examples.poolC6 10).1 = some "b" :=
  ⟨⟨by decide, by decide, by decide⟩,
   c6_theorem Examples.poolC6 10 (by decide) (by decide) (by decide),
   by decide⟩

set_option maxRecDepth 40000 in
/-- C8: the byte-budgeted page loop of `_search_text_content`.  First, the
concrete scenario: with target budget 1000 and one 300-byte acceptable
candidate per page, the loop accepts 4 entries (accumulator 1200 ≥ 1000)
and requests exactly the batches of pages 1-4, never a 5th.  Second, in
general the loop requests no batch at all once the accumulator has reached
the target, and the inner batch loop breaks on the entry that crosses it. -/
theorem c8_theorem :
    (WS1.searchTextContent Examples.pagesOf300 1000 50 1 { buffer := [], size := 0 } =
      ({ buffer := [Examples.page300, Examples.page300, Examples.page300, Examples.page300],
         size := 1200 }, [1, 2, 3, 4])) ∧
    (∀ (pages : Nat → List WS1.RawResult) (target fuel page : Nat) (s : WS1.SailorState),
      s.size ≥ target → WS1.searchTextContent pages target fuel page s = (s, [])) ∧
    (∀ (target : Nat) (s : WS1.SailorState) (r : WS1.RawResult) (rs : List WS1.RawResult),
      (WS1.extractAndAddContent s r).size ≥ target →
      WS1.processResults target s (r :: rs) = WS1.extractAndAddContent s r) := by
  refine ⟨by decide, ?_, ?_⟩
  · intro pages target fuel page s h
    cases fuel with
    | zero => rfl
    | succ fuel => simp [WS1.searchTextContent, h]
  · intro target s r rs h
    simp [WS1.processResults, h]

set_option maxRecDepth 40000 in
/-- C8, witness: a zero target is met immediately, so no page batch is
requested; and a 300-byte entry meeting a 200-byte target breaks the batch
loop at once. -/
theorem c8_witness :
    ((0 : Nat) ≥ 0 ∧
      WS1.searchTextContent Examples.pagesOf300 0 50 1 { buffer := [], size := 0 } =
        ({ buffer := [], size := 0 }, [])) ∧
    ((WS1.extractAndAddContent { buffer := [], size := 0 } Examples.page300).size ≥ 200 ∧
      WS1.processResults 200 { buffer := [], size := 0 } [Examples.page300, Examples.page300] =
        WS1.extractAndAddContent { buffer := [], size := 0 } Examples.page300) :=
  ⟨⟨by decide,
    c8_theorem.2.1 Examples.pagesOf300 0 50 1 { buffer := [], size := 0 } (by decide)⟩,
   ⟨by decide,
    c8_theorem.2.2 200 { buffer := [], size := 0 } Examples.page300 [Examples.page300]
      (by decide)⟩⟩

namespace WS1

theorem extractAndAddContent_sum (s : SailorState) (r : RawResult)
    (h : s.size = (s.buffer.map entrySize).sum) :
    (extractAndAddContent s r).size =
      ((extractAndAddContent s r).buffer.map entrySize).sum := by
  by_cases hsz : entrySize r > 100
  · simp [extractAndAddContent, hsz, h]
  · simp [extractAndAddContent, hsz, h]

theorem processResults_cons (target : Nat) (s : SailorState) (r : RawResult)
    (rs : List RawResult) :
    processResults target s (r :: rs) =
      if (extractAndAddContent s r).size ≥ target then extractAndAddContent s r
      else processResults target (extractAndAddContent s r) rs := rfl

theorem processResults_sum (target : Nat) :
    ∀ (rs : List RawResult) (s : SailorState),
      s.size = (s.buffer.map entrySize).sum →
      (processResults target s rs).size =
        ((processResults target s rs).buffer.map entrySize).sum := by
  intro rs
  induction rs with
  | nil => intro s h; exact h
  | cons r rs ih =>
    intro s h
    have h2 := extractAndAddContent_sum s r h
    by_cases hstop : (extractAndAddContent s r).size ≥ target
    · rw [processResults_cons, if_pos hstop]
      exact h2
    · rw [processResults_cons, if_neg hstop]
      exact ih (extractAndAddContent s r) h2

theorem searchTextContent_sum (pages : Nat → List RawResult) (target : Nat) :
    ∀ (fuel page : Nat) (s : SailorState),
      s.size = (s.buffer.map entrySize).sum →
      (searchTextContent pages target fuel page s).1.size =
        ((searchTextContent pages target fuel page s).1.buffer.map entrySize).sum := by
  intro fuel
  induction fuel with
  | zero => intro page s h; exact h
  | succ fuel ih =>
    intro page s h
    by_cases hbud : s.size ≥ target
    · simpa [searchTextContent, hbud] using h
    · by_cases hemp : (pages page).isEmpty
      · simpa [searchTextContent, hbud, hemp] using h
      · have h2 := processResults_sum target (pages page) s h
        by_cases hceil : page + 1 > 50
        · simpa [searchTextContent, hbud, hemp, hceil] using h2
        · simpa [searchTextContent, hbud, hemp, hceil] using
            ih (page + 1) (processResults target s (pages page)) h2

end WS1

/-- C9: the accounting of the collection session.  A candidate is accepted
exactly when the UTF-8 size of its combined title, content and snippet
exceeds 100 bytes, in which case precisely that size is added to the
accumulator; acceptance preserves the accumulator-equals-sum invariant; and
the final report of `execute_massive_search` reports a content size equal
to the sum of the accepted entries' byte sizes (and an entry count equal to
the buffer length). -/
theorem c9_theorem :
    (∀ (s : WS1.SailorState) (r : WS1.RawResult), WS1.entrySize r > 100 →
      WS1.extractAndAddContent s r =
        { buffer := s.buffer ++ [r], size := s.size + WS1.entrySize r }) ∧
    (∀ (s : WS1.SailorState) (r : WS1.RawResult), ¬ WS1.entrySize r > 100 →
      WS1.extractAndAddContent s r = s) ∧
    (∀ (s : WS1.SailorState) (r : WS1.RawResult),
      s.size = (s.buffer.map WS1.entrySize).sum →
      (WS1.extractAndAddContent s r).size =
        ((WS1.extractAndAddContent s r).buffer.map WS1.entrySize).sum) ∧
    (∀ (query : String) (pages : Nat → List WS1.RawResult) (target : Nat),
      (WS1.executeMassiveSearch query pages target).1.content_size =
        ((WS1.executeMassiveSearch query pages target).2.buffer.map WS1.entrySize).sum ∧
      (WS1.executeMassiveSearch query pages target).1.text_entries =
        (WS1.executeMassiveSearch query pages target).2.buffer.length) := by
  refine ⟨?_, ?_, WS1.extractAndAddContent_sum, ?_⟩
  · intro s r h
    simp [WS1.extractAndAddContent, h]
  · intro s r h
    simp [WS1.extractAndAddContent, h]
  · intro query pages target
    refine ⟨?_, rfl⟩
    exact WS1.searchTextContent_sum pages target 50 1 { buffer := [], size := 0 } rfl

set_option maxRecDepth 40000 in
/-- C9, witness: a 300-byte candidate is accepted into an empty session and
a 2-byte one is rejected; the final report over the one-candidate-per-page
capability with budget 1000 reports 1200 = 4 × 300. -/
theorem c9_witness :
    (WS1.entrySize Examples.page300 > 100 ∧
      WS1.extractAndAddContent { buffer := [], size := 0 } Examples.page300 =
        { buffer := ([] : List WS1.RawResult) ++ [Examples.page300],
          size := 0 + WS1.entrySize Examples.page300 }) ∧
    (¬ WS1.entrySize Examples.rEmpty > 100 ∧
      WS1.extractAndAddContent { buffer := [], size := 0 } Examples.rEmpty =
        { buffer := [], size := 0 }) ∧
    (WS1.executeMassiveSearch "q" Examples.pagesOf300 1000).1.content_size =
      ((WS1.executeMassiveSearch "q" Examples.pagesOf300 1000).2.buffer.map
        WS1.entrySize).sum :=
  ⟨⟨by decide, (c9_theorem.1) { buffer := [], size := 0 } Examples.page300 (by decide)⟩,
   ⟨by decide, (c9_theorem.2.1) { buffer := [], size := 0 } Examples.rEmpty (by decide)⟩,
   ((c9_theorem.2.2.2) "q" Examples.pagesOf300 1000).1⟩

set_option maxRecDepth 40000 in
/-- C3: the accumulator of the `get_websailor` engine instance is not
ephemeral.  The second `AlibabaWebSailor.execute_massive_search` (the
definition `get_websailor` exports) never resets `total_content_size`, so a
second call on the same instance starts with the previous call's
accumulator (here 300, not 0) and reports a cumulative 600 for the same
input, contradicting the one-session-per-call design (which the shadowed
first class implements by resetting at lines 43-46). -/
theorem c3_theorem :
    (WS2.executeMassiveSearch WS2.initState Examples.out300).1.content_size = 300 ∧
    ((WS2.executeMassiveSearch WS2.initState Examples.out300).2).total_content_size = 300 ∧
    (WS2.executeMassiveSearch
      ((WS2.executeMassiveSearch WS2.initState Examples.out300).2)
      Examples.out300).1.content_size = 600 := by
  exact ⟨by decide, by decide, by decide⟩

namespace Orch

theorem searchWithExa_none_eq (s : Rotation.PoolState) (now : Int)
    (ad : String → Except String (List ExaRawItem)) (s1 : Rotation.PoolState)
    (hsel : Rotation.getNextApi s now = (none, s1)) :
    searchWithExa s now ad = (none, s1) := by
  unfold searchWithExa
  rw [hsel]

theorem searchWithExa_ok_eq (s : Rotation.PoolState) (now : Int)
    (ad : String → Except String (List ExaRawItem)) (k : String)
    (s1 : Rotation.PoolState) (hsel : Rotation.getNextApi s now = (some k, s1))
    (hk : k ≠ "") (l : List ExaRawItem) (had : ad k = Except.ok l) :
    searchWithExa s now ad =
      (some { results := l.map processExaItem, total_results := l.length,
              api_used := k.take 10 ++ "..." }, s1) := by
  unfold searchWithExa
  rw [hsel]
  simp [hk, had]

theorem searchWithExa_err_eq (s : Rotation.PoolState) (now : Int)
    (ad : String → Except String (List ExaRawItem)) (k : String)
    (s1 : Rotation.PoolState) (hsel : Rotation.getNextApi s now = (some k, s1))
    (hk : k ≠ "") (e : String) (had : ad k = Except.error e) :
    searchWithExa s now ad =
      (none, Rotation.reportError s1 k (if hasRate e then "rate_limit" else "generic")) := by
  unfold searchWithExa
  rw [hsel]
  simp [hk, had]

theorem keepExa_isSome (o : Option ExaResult) :
    (keepExa o).isSome = true ↔ ∃ r, o = some r ∧ r.results ≠ [] := by
  cases o with
  | none => simp [keepExa]
  | some r =>
    by_cases h : r.results.isEmpty
    · rw [List.isEmpty_iff] at h
      simp [keepExa, h]
    · rw [List.isEmpty_iff] at h
      simp [keepExa, h]

theorem searchWithTavily_none_eq (s : Rotation.PoolState) (now : Int)
    (ad : String → Except String (String × List TavilyRawItem)) (s1 : Rotation.PoolState)
    (hsel : Rotation.getNextApi s now = (none, s1)) :
    searchWithTavily s now ad = (none, s1) := by
  unfold searchWithTavily
  rw [hsel]

theorem searchWithTavily_ok_eq (s : Rotation.PoolState) (now : Int)
    (ad : String → Except String (String × List TavilyRawItem)) (k : String)
    (s1 : Rotation.PoolState) (hsel : Rotation.getNextApi s now = (some k, s1))
    (hk : k ≠ "") (a : String) (l : List TavilyRawItem)
    (had : ad k = Except.ok (a, l)) :
    searchWithTavily s now ad =
      (some { results := l.map processTavilyItem, answer := a, total_results := l.length,
              api_used := k.take 10 ++ "..." }, s1) := by
  unfold searchWithTavily
  rw [hsel]
  simp [hk, had]

theorem searchWithTavily_err_eq (s : Rotation.PoolState) (now : Int)
    (ad : String → Except String (String × List TavilyRawItem)) (k : String)
    (s1 : Rotation.PoolState) (hsel : Rotation.getNextApi s now = (some k, s1))
    (hk : k ≠ "") (e : String) (had : ad k = Except.error e) :
    searchWithTavily s now ad =
      (none, Rotation.reportError s1 k (if hasRate e then "rate_limit" else "generic")) := by
  unfold searchWithTavily
  rw [hsel]
  simp [hk, had]

theorem keepTavily_isSome (o : Option TavilyResult) :
    (keepTavily o).isSome = true ↔ ∃ r, o = some r ∧ r.results ≠ [] := by
  cases o with
  | none => simp [keepTavily]
  | some r =>
    by_cases h : r.results.isEmpty
    · rw [List.isEmpty_iff] at h
      simp [keepTavily, h]
    · rw [List.isEmpty_iff] at h
      simp [keepTavily, h]

theorem searchWithSerpapi_none_eq (s : Rotation.PoolState) (now : Int)
    (ad : String → Except String (List SerpRawItem)) (s1 : Rotation.PoolState)
    (hsel : Rotation.getNextApi s now = (none, s1)) :
    searchWithSerpapi s now ad = (none, s1) := by
  unfold searchWithSerpapi
  rw [hsel]

theorem searchWithSerpapi_ok_eq (s : Rotation.PoolState) (now : Int)
    (ad : String → Except String (List SerpRawItem)) (k : String)
    (s1 : Rotation.PoolState) (hsel : Rotation.getNextApi s now = (some k, s1))
    (hk : k ≠ "") (l : List SerpRawItem) (had : ad k = Except.ok l) :
    searchWithSerpapi s now ad =
      (some { results := l.map processSerpItem, total_results := l.length,
              api_used := k.take 10 ++ "..." }, s1) := by
  unfold searchWithSerpapi
  rw [hsel]
  simp [hk, had]

theorem searchWithSerpapi_err_eq (s : Rotation.PoolState) (now : Int)
    (ad : String → Except String (List SerpRawItem)) (k : String)
    (s1 : Rotation.PoolState) (hsel : Rotation.getNextApi s now = (some k, s1))
    (hk : k ≠ "") (e : String) (had : ad k = Except.error e) :
    searchWithSerpapi s now ad =
      (none, Rotation.reportError s1 k (if hasRate e then "rate_limit" else "generic")) := by
  unfold searchWithSerpapi
  rw [hsel]
  simp [hk, had]

theorem keepSerpapi_isSome (o : Option SerpapiResult) :
    (keepSerpapi o).isSome = true ↔ ∃ r, o = some r ∧ r.results ≠ [] := by
  cases o with
  | none => simp [keepSerpapi]
  | some r =>
    by_cases h : r.results.isEmpty
    · rw [List.isEmpty_iff] at h
      simp [keepSerpapi, h]
    · rw [List.isEmpty_iff] at h
      simp [keepSerpapi, h]

theorem keep_searchWithExa_iff (s : Rotation.PoolState) (now : Int)
    (ad : String → Except String (List ExaRawItem)) :
    (keepExa (searchWithExa s now ad).1).isSome = true ↔
      ∃ k s1 l, Rotation.getNextApi s now = (some k, s1) ∧ k ≠ "" ∧
        ad k = Except.ok l ∧ l ≠ [] := by
  rw [keepExa_isSome]
  rcases hsel : Rotation.getNextApi s now with ⟨o, s1⟩
  cases o with
  | none =>
    rw [searchWithExa_none_eq s now ad s1 hsel]
    simp [hsel]
  | some k =>
    by_cases hk : k = ""
    · subst hk
      have he : searchWithExa s now ad = (none, s1) := by
        unfold searchWithExa
        rw [hsel]
        simp
      rw [he]
      simp [hsel]
    · cases had : ad k with
      | error e =>
        rw [searchWithExa_err_eq s now ad k s1 hsel hk e had]
        simp [hsel, had]
      | ok l =>
        rw [searchWithExa_ok_eq s now ad k s1 hsel hk l had]
        simp [hsel, had, hk]

theorem keep_searchWithTavily_iff (s : Rotation.PoolState) (now : Int)
    (ad : String → Except String (String × List TavilyRawItem)) :
    (keepTavily (searchWithTavily s now ad).1).isSome = true ↔
      ∃ k s1 a l, Rotation.getNextApi s now = (some k, s1) ∧ k ≠ "" ∧
        ad k = Except.ok (a, l) ∧ l ≠ [] := by
  rw [keepTavily_isSome]
  rcases hsel : Rotation.getNextApi s now with ⟨o, s1⟩
  cases o with
  | none =>
    rw [searchWithTavily_none_eq s now ad s1 hsel]
    simp [hsel]
  | some k =>
    by_cases hk : k = ""
    · subst hk
      have he : searchWithTavily s now ad = (none, s1) := by
        unfold searchWithTavily
        rw [hsel]
        simp
      rw [he]
      simp [hsel]
    · cases had : ad k with
      | error e =>
        rw [searchWithTavily_err_eq s now ad k s1 hsel hk e had]
        simp [hsel, had]
      | ok p =>
        rw [searchWithTavily_ok_eq s now ad k s1 hsel hk p.1 p.2 (by rw [had])]
        simp only [hsel, had, hk]
        simp [hk]
        constructor
        · intro h
          exact ⟨p.1, p.2, had, h⟩
        · rintro ⟨a, l, hp, h⟩
          rw [had] at hp
          injection hp with hp2
          rw [hp2]
          exact h

theorem keep_searchWithSerpapi_iff (s : Rotation.PoolState) (now : Int)
    (ad : String → Except String (List SerpRawItem)) :
    (keepSerpapi (searchWithSerpapi s now ad).1).isSome = true ↔
      ∃ k s1 l, Rotation.getNextApi s now = (some k, s1) ∧ k ≠ "" ∧
        ad k = Except.ok l ∧ l ≠ [] := by
  rw [keepSerpapi_isSome]
  rcases hsel : Rotation.getNextApi s now with ⟨o, s1⟩
  cases o with
  | none =>
    rw [searchWithSerpapi_none_eq s now ad s1 hsel]
    simp [hsel]
  | some k =>
    by_cases hk : k = ""
    · subst hk
      have he : searchWithSerpapi s now ad = (none, s1) := by
        unfold searchWithSerpapi
        rw [hsel]
        simp
      rw [he]
      simp [hsel]
    · cases had : ad k with
      | error e =>
        rw [searchWithSerpapi_err_eq s now ad k s1 hsel hk e had]
        simp [hsel, had]
      | ok l =>
        rw [searchWithSerpapi_ok_eq s now ad k s1 hsel hk l had]
        simp [hsel, had, hk]

theorem searchWithExa_ok_keep (s : Rotation.PoolState) (now : Int)
    (ad : String → Except String (List ExaRawItem))
    (hidx : s.idx < s.keys.length) (hkeys : ∀ k ∈ s.keys, k ≠ "")
    (hok : ∀ k, ∃ l, ad k = Except.ok l ∧ l ≠ []) :
    ∃ k l, k ∈ s.keys ∧ ad k = Except.ok l ∧ l ≠ [] ∧
      keepExa (searchWithExa s now ad).1 =
        some { results := l.map processExaItem, total_results := l.length,
               api_used := k.take 10 ++ "..." } := by
  obtain ⟨k, i, hsel, hmem⟩ := Rotation.getNextApi_spec s now hidx
  obtain ⟨l, hl, hlne⟩ := hok k
  refine ⟨k, l, hmem, hl, hlne, ?_⟩
  rw [searchWithExa_ok_eq s now ad k _ hsel (hkeys k hmem) l hl]
  simp [keepExa, List.isEmpty_iff, hlne]

theorem searchWithExa_rate (s : Rotation.PoolState) (now : Int)
    (ad : String → Except String (List ExaRawItem))
    (hidx : s.idx < s.keys.length) (hkeys : ∀ k ∈ s.keys, k ≠ "")
    (herr : ∀ k, ∃ e, ad k = Except.error e ∧ hasRate e = true) :
    keepExa (searchWithExa s now ad).1 = none ∧
    ∃ k, k ∈ s.keys ∧ (searchWithExa s now ad).2.cooldown k = 300 := by
  obtain ⟨k, i, hsel, hmem⟩ := Rotation.getNextApi_spec s now hidx
  obtain ⟨e, he, hr⟩ := herr k
  have hcls : (if hasRate e then "rate_limit" else "generic") = "rate_limit" := by
    simp [hr]
  have heq := searchWithExa_err_eq s now ad k _ hsel (hkeys k hmem) e he
  rw [hcls] at heq
  rw [heq]
  refine ⟨rfl, k, hmem, ?_⟩
  have hmem1 : k ∈ (Rotation.updateUsage { s with idx := i } now k).keys := hmem
  rw [Rotation.reportError_eq _ k "rate_limit" hmem1]
  simp

theorem searchWithTavily_ok_keep (s : Rotation.PoolState) (now : Int)
    (ad : String → Except String (String × List TavilyRawItem))
    (hidx : s.idx < s.keys.length) (hkeys : ∀ k ∈ s.keys, k ≠ "")
    (hok : ∀ k, ∃ a l, ad k = Except.ok (a, l) ∧ l ≠ []) :
    ∃ k a l, k ∈ s.keys ∧ ad k = Except.ok (a, l) ∧ l ≠ [] ∧
      keepTavily (searchWithTavily s now ad).1 =
        some { results := l.map processTavilyItem, answer := a, total_results := l.length,
               api_used := k.take 10 ++ "..." } := by
  obtain ⟨k, i, hsel, hmem⟩ := Rotation.getNextApi_spec s now hidx
  obtain ⟨a, l, hl, hlne⟩ := hok k
  refine ⟨k, a, l, hmem, hl, hlne, ?_⟩
  rw [searchWithTavily_ok_eq s now ad k _ hsel (hkeys k hmem) a l hl]
  simp [keepTavily, List.isEmpty_iff, hlne]

theorem searchWithTavily_rate (s : Rotation.PoolState) (now : Int)
    (ad : String → Except String (String × List TavilyRawItem))
    (hidx : s.idx < s.keys.length) (hkeys : ∀ k ∈ s.keys, k ≠ "")
    (herr : ∀ k, ∃ e, ad k = Except.error e ∧ hasRate e = true) :
    keepTavily (searchWithTavily s now ad).1 = none ∧
    ∃ k, k ∈ s.keys ∧ (searchWithTavily s now ad).2.cooldown k = 300 := by
  obtain ⟨k, i, hsel, hmem⟩ := Rotation.getNextApi_spec s now hidx
  obtain ⟨e, he, hr⟩ := herr k
  have hcls : (if hasRate e then "rate_limit" else "generic") = "rate_limit" := by
    simp [hr]
  have heq := searchWithTavily_err_eq s now ad k _ hsel (hkeys k hmem) e he
  rw [hcls] at heq
  rw [heq]
  refine ⟨rfl, k, hmem, ?_⟩
  have hmem1 : k ∈ (Rotation.updateUsage { s with idx := i } now k).keys := hmem
  rw [Rotation.reportError_eq _ k "rate_limit" hmem1]
  simp

theorem searchWithSerpapi_ok_keep (s : Rotation.PoolState) (now : Int)
    (ad : String → Except String (List SerpRawItem))
    (hidx : s.idx < s.keys.length) (hkeys : ∀ k ∈ s.keys, k ≠ "")
    (hok : ∀ k, ∃ l, ad k = Except.ok l ∧ l ≠ []) :
    ∃ k l, k ∈ s.keys ∧ ad k = Except.ok l ∧ l ≠ [] ∧
      keepSerpapi (searchWithSerpapi s now ad).1 =
        some { results := l.map processSerpItem, total_results := l.length,
               api_used := k.take 10 ++ "..." } := by
  obtain ⟨k, i, hsel, hmem⟩ := Rotation.getNextApi_spec s now hidx
  obtain ⟨l, hl, hlne⟩ := hok k
  refine ⟨k, l, hmem, hl, hlne, ?_⟩
  rw [searchWithSerpapi_ok_eq s now ad k _ hsel (hkeys k hmem) l hl]
  simp [keepSerpapi, List.isEmpty_iff, hlne]

theorem searchWithSerpapi_rate (s : Rotation.PoolState) (now : Int)
    (ad : String → Except String (List SerpRawItem))
    (hidx : s.idx < s.keys.length) (hkeys : ∀ k ∈ s.keys, k ≠ "")
    (herr : ∀ k, ∃ e, ad k = Except.error e ∧ hasRate e = true) :
    keepSerpapi (searchWithSerpapi s now ad).1 = none ∧
    ∃ k, k ∈ s.keys ∧ (searchWithSerpapi s now ad).2.cooldown k = 300 := by
  obtain ⟨k, i, hsel, hmem⟩ := Rotation.getNextApi_spec s now hidx
  obtain ⟨e, he, hr⟩ := herr k
  have hcls : (if hasRate e then "rate_limit" else "generic") = "rate_limit" := by
    simp [hr]
  have heq := searchWithSerpapi_err_eq s now ad k _ hsel (hkeys k hmem) e he
  rw [hcls] at heq
  rw [heq]
  refine ⟨rfl, k, hmem, ?_⟩
  have hmem1 : k ∈ (Rotation.updateUsage { s with idx := i } now k).keys := hmem
  rw [Rotation.reportError_eq _ k "rate_limit" hmem1]
  simp

end Orch

/-- C7: the partial-failure contract of `execute_comprehensive_search`.
For configured pools (non-empty, in-range cursor, non-empty key strings),
when exactly one provider's adapter always raises an error whose text
contains "rate" while the other two always succeed with non-empty results,
the consolidated call still returns `success = true`, the consolidated
per-provider dict holds the successful providers' processed entries and no
key for the failing provider, the credential selected for the failing
provider ends with a 300-second cooldown, and no exception reaches the
caller (the embedded call is total and unconditionally consolidates).  The
three conjuncts cover the failing provider being tavily, exa and serpapi
respectively. -/
theorem c7_theorem (ws : WS2.SailorState) (st : Orch.OrchState) (now : Int)
    (query product : String) (urlOut : List (Option String))
    (exaAd : String → Except String (List Orch.ExaRawItem))
    (tavAd : String → Except String (String × List Orch.TavilyRawItem))
    (serpAd : String → Except String (List Orch.SerpRawItem))
    (hie : st.exa.idx < st.exa.keys.length) (hke : ∀ k ∈ st.exa.keys, k ≠ "")
    (hit : st.tavily.idx < st.tavily.keys.length) (hkt : ∀ k ∈ st.tavily.keys, k ≠ "")
    (his : st.serpapi.idx < st.serpapi.keys.length) (hks : ∀ k ∈ st.serpapi.keys, k ≠ "") :
    ((∀ k, ∃ l, exaAd k = Except.ok l ∧ l ≠ []) →
     (∀ k, ∃ e, tavAd k = Except.error e ∧ hasRate e = true) →
     (∀ k, ∃ l, serpAd k = Except.ok l ∧ l ≠ []) →
     (Orch.executeComprehensiveSearch ws st now query product urlOut exaAd tavAd serpAd).1.success
        = true ∧
     (Orch.executeComprehensiveSearch ws st now query product urlOut exaAd tavAd
        serpAd).1.api_search_results.tavily = none ∧
     (∃ k l, k ∈ st.exa.keys ∧ exaAd k = Except.ok l ∧ l ≠ [] ∧
       (Orch.executeComprehensiveSearch ws st now query product urlOut exaAd tavAd
          serpAd).1.api_search_results.exa =
         some { results := l.map Orch.processExaItem, total_results := l.length,
                api_used := k.take 10 ++ "..." }) ∧
     (∃ k l, k ∈ st.serpapi.keys ∧ serpAd k = Except.ok l ∧ l ≠ [] ∧
       (Orch.executeComprehensiveSearch ws st now query product urlOut exaAd tavAd
          serpAd).1.api_search_results.serpapi =
         some { results := l.map Orch.processSerpItem, total_results := l.length,
                api_used := k.take 10 ++ "..." }) ∧
     (∃ k, k ∈ st.tavily.keys ∧
       (Orch.executeComprehensiveSearch ws st now query product urlOut exaAd tavAd
          serpAd).2.2.tavily.cooldown k = 300)) ∧
    ((∀ k, ∃ e, exaAd k = Except.error e ∧ hasRate e = true) →
     (∀ k, ∃ a l, tavAd k = Except.ok (a, l) ∧ l ≠ []) →
     (∀ k, ∃ l, serpAd k = Except.ok l ∧ l ≠ []) →
     (Orch.executeComprehensiveSearch ws st now query product urlOut exaAd tavAd serpAd).1.success
        = true ∧
     (Orch.executeComprehensiveSearch ws st now query product urlOut exaAd tavAd
        serpAd).1.api_search_results.exa = none ∧
     (∃ k a l, k ∈ st.tavily.keys ∧ tavAd k = Except.ok (a, l) ∧ l ≠ [] ∧
       (Orch.executeComprehensiveSearch ws st now query product urlOut exaAd tavAd
          serpAd).1.api_search_results.tavily =
         some { results := l.map Orch.processTavilyItem, answer := a, total_results := l.length,
                api_used := k.take 10 ++ "..." }) ∧
     (∃ k l, k ∈ st.serpapi.keys ∧ serpAd k = Except.ok l ∧ l ≠ [] ∧
       (Orch.executeComprehensiveSearch ws st now query product urlOut exaAd tavAd
          serpAd).1.api_search_results.serpapi =
         some { results := l.map Orch.processSerpItem, total_results := l.length,
                api_used := k.take 10 ++ "..." }) ∧
     (∃ k, k ∈ st.exa.keys ∧
       (Orch.executeComprehensiveSearch ws st now query product urlOut exaAd tavAd
          serpAd).2.2.exa.cooldown k = 300)) ∧
    ((∀ k, ∃ l, exaAd k = Except.ok l ∧ l ≠ []) →
     (∀ k, ∃ a l, tavAd k = Except.ok (a, l) ∧ l ≠ []) →
     (∀ k, ∃ e, serpAd k = Except.error e ∧ hasRate e = true) →
     (Orch.executeComprehensiveSearch ws st now query product urlOut exaAd tavAd serpAd).1.success
        = true ∧
     (Orch.executeComprehensiveSearch ws st now query product urlOut exaAd tavAd
        serpAd).1.api_search_results.serpapi = none ∧
     (∃ k l, k ∈ st.exa.keys ∧ exaAd k = Except.ok l ∧ l ≠ [] ∧
       (Orch.executeComprehensiveSearch ws st now query product urlOut exaAd tavAd
          serpAd).1.api_search_results.exa =
         some { results := l.map Orch.processExaItem, total_results := l.length,
                api_used := k.take 10 ++ "..." }) ∧
     (∃ k a l, k ∈ st.tavily.keys ∧ tavAd k = Except.ok (a, l) ∧ l ≠ [] ∧
       (Orch.executeComprehensiveSearch ws st now query product urlOut exaAd tavAd
          serpAd).1.api_search_results.tavily =
         some { results := l.map Orch.processTavilyItem, answer := a, total_results := l.length,
                api_used := k.take 10 ++ "..." }) ∧
     (∃ k, k ∈ st.serpapi.keys ∧
       (Orch.executeComprehensiveSearch ws st now query product urlOut exaAd tavAd
          serpAd).2.2.serpapi.cooldown k = 300)) := by
  refine ⟨?_, ?_, ?_⟩
  · intro hexa htav hserp
    obtain ⟨ke, le, hkeM, hadE, hlneE, hkeepE⟩ :=
      Orch.searchWithExa_ok_keep st.exa now exaAd hie hke hexa
    obtain ⟨hTnone, kt, hktM, hcoolT⟩ :=
      Orch.searchWithTavily_rate st.tavily now tavAd hit hkt htav
    obtain ⟨ks, ls, hksM, hadS, hlneS, hkeepS⟩ :=
      Orch.searchWithSerpapi_ok_keep st.serpapi now serpAd his hks hserp
    exact ⟨rfl, hTnone, ⟨ke, le, hkeM, hadE, hlneE, hkeepE⟩,
      ⟨ks, ls, hksM, hadS, hlneS, hkeepS⟩, ⟨kt, hktM, hcoolT⟩⟩
  · intro hexa htav hserp
    obtain ⟨hEnone, ke, hkeM, hcoolE⟩ :=
      Orch.searchWithExa_rate st.exa now exaAd hie hke hexa
    obtain ⟨kt, at2, lt, hktM, hadT, hlneT, hkeepT⟩ :=
      Orch.searchWithTavily_ok_keep st.tavily now tavAd hit hkt htav
    obtain ⟨ks, ls, hksM, hadS, hlneS, hkeepS⟩ :=
      Orch.searchWithSerpapi_ok_keep st.serpapi now serpAd his hks hserp
    exact ⟨rfl, hEnone, ⟨kt, at2, lt, hktM, hadT, hlneT, hkeepT⟩,
      ⟨ks, ls, hksM, hadS, hlneS, hkeepS⟩, ⟨ke, hkeM, hcoolE⟩⟩
  · intro hexa htav hserp
    obtain ⟨ke, le, hkeM, hadE, hlneE, hkeepE⟩ :=
      Orch.searchWithExa_ok_keep st.exa now exaAd hie hke hexa
    obtain ⟨kt, at2, lt, hktM, hadT, hlneT, hkeepT⟩ :=
      Orch.searchWithTavily_ok_keep st.tavily now tavAd hit hkt htav
    obtain ⟨hSnone, ks, hksM, hcoolS⟩ :=
      Orch.searchWithSerpapi_rate st.serpapi now serpAd his hks hserp
    exact ⟨rfl, hSnone, ⟨ke, le, hkeM, hadE, hlneE, hkeepE⟩,
      ⟨kt, at2, lt, hktM, hadT, hlneT, hkeepT⟩, ⟨ks, hksM, hcoolS⟩⟩

/-- C7, witness: one healthy single-credential pool per provider, a Tavily
adapter that always raises "429 Rate limit exceeded" and Exa/SerpAPI
adapters that always return one result. -/
theorem c7_witness :
    (Examples.adTavRate "tav-key-1" = Except.error "429 Rate limit exceeded" ∧
     hasRate "429 Rate limit exceeded" = true) ∧
    ((Orch.executeComprehensiveSearch WS2.initState Examples.orchW 0 "q" "p" []
        Examples.adExaOk Examples.adTavRate Examples.adSerpOk).1.success = true ∧
     (Orch.executeComprehensiveSearch WS2.initState Examples.orchW 0 "q" "p" []
        Examples.adExaOk Examples.adTavRate Examples.adSerpOk).1.api_search_results.tavily
        = none ∧
     (∃ k l, k ∈ Examples.orchW.exa.keys ∧ Examples.adExaOk k = Except.ok l ∧ l ≠ [] ∧
       (Orch.executeComprehensiveSearch WS2.initState Examples.orchW 0 "q" "p" []
          Examples.adExaOk Examples.adTavRate Examples.adSerpOk).1.api_search_results.exa =
         some { results := l.map Orch.processExaItem, total_results := l.length,
                api_used := k.take 10 ++ "..." }) ∧
     (∃ k l, k ∈ Examples.orchW.serpapi.keys ∧ Examples.adSerpOk k = Except.ok l ∧ l ≠ [] ∧
       (Orch.executeComprehensiveSearch WS2.initState Examples.orchW 0 "q" "p" []
          Examples.adExaOk Examples.adTavRate Examples.adSerpOk).1.api_search_results.serpapi =
         some { results := l.map Orch.processSerpItem, total_results := l.length,
                api_used := k.take 10 ++ "..." }) ∧
     (∃ k, k ∈ Examples.orchW.tavily.keys ∧
       (Orch.executeComprehensiveSearch WS2.initState Examples.orchW 0 "q" "p" []
          Examples.adExaOk Examples.adTavRate Examples.adSerpOk).2.2.tavily.cooldown k
          = 300)) :=
  ⟨⟨rfl, by decide⟩,
   (c7_theorem WS2.initState Examples.orchW 0 "q" "p" []
      Examples.adExaOk Examples.adTavRate Examples.adSerpOk
      (by decide) (by decide) (by decide) (by decide) (by decide) (by decide)).1
     (fun k => ⟨_, rfl, by decide⟩)
     (fun k => ⟨"429 Rate limit exceeded", rfl, by decide⟩)
     (fun k => ⟨_, rfl, by decide⟩)⟩

/-- C10: in the consolidated dict of `_search_with_multiple_apis`, a
provider's key is present exactly when a credential was selected, the
adapter call succeeded and its result list was non-empty; a succeeding call
with zero results is therefore indistinguishable from a failed one at this
surface (both leave the key absent). -/
theorem c10_theorem (st : Orch.OrchState) (now : Int)
    (exaAd : String → Except String (List Orch.ExaRawItem))
    (tavAd : String → Except String (String × List Orch.TavilyRawItem))
    (serpAd : String → Except String (List Orch.SerpRawItem)) :
    ((Orch.searchWithMultipleApis st now exaAd tavAd serpAd).1.exa.isSome = true ↔
      ∃ k s1 l, Rotation.getNextApi st.exa now = (some k, s1) ∧ k ≠ "" ∧
        exaAd k = Except.ok l ∧ l ≠ []) ∧
    ((Orch.searchWithMultipleApis st now exaAd tavAd serpAd).1.tavily.isSome = true ↔
      ∃ k s1 a l, Rotation.getNextApi st.tavily now = (some k, s1) ∧ k ≠ "" ∧
        tavAd k = Except.ok (a, l) ∧ l ≠ []) ∧
    ((Orch.searchWithMultipleApis st now exaAd tavAd serpAd).1.serpapi.isSome = true ↔
      ∃ k s1 l, Rotation.getNextApi st.serpapi now = (some k, s1) ∧ k ≠ "" ∧
        serpAd k = Except.ok l ∧ l ≠ []) :=
  ⟨Orch.keep_searchWithExa_iff st.exa now exaAd,
   Orch.keep_searchWithTavily_iff st.tavily now tavAd,
   Orch.keep_searchWithSerpapi_iff st.serpapi now serpAd⟩

end V360
